import Mathlib

/-!
Verification development for the vtgate query router (`go/vt/vtgate/router.go`).

The router sits between a MySQL-speaking client and a fleet of shards.  The
definitions below are a shallow embedding of the router source: Go values of
static type `interface{}` become `GoVal`, fallible Go functions become
`Outcome`-returning Lean functions, a Go `panic` becomes the distinguished
`Outcome.panic` constructor, and every side-effecting interaction with an
external collaborator (the scatter executor, vindex backing tables, bind-var
mutation) is recorded in an event trace.  External collaborators consumed by
the router (topology service, scatter executor, `mproto.Convert`) are
parameters gathered in `Env`; vindex implementations are response functions
carried by the `Vindex` capability record.
-/

namespace VtRouter

/-- A Go `interface{}` value as the router sees it: strings, byte strings,
integers, `nil`, and slices (`[]interface{}`). -/
inductive GoVal where
  | str (s : String)
  | bytes (b : String)
  | vint (n : Int)
  | vnil
  | vlist (l : List GoVal)

mutual

/-- Go equality (`==` on comparable interface values; byte slices are interned
as strings before being compared, mirroring `deleteVindexEntries`). -/
def GoVal.beq : GoVal → GoVal → Bool
  | .str a, .str b => a == b
  | .bytes a, .bytes b => a == b
  | .vint a, .vint b => a == b
  | .vnil, .vnil => true
  | .vlist a, .vlist b => GoVal.beqList a b
  | _, _ => false

/-- Pointwise `GoVal.beq` on lists. -/
def GoVal.beqList : List GoVal → List GoVal → Bool
  | [], [] => true
  | a :: as, b :: bs => GoVal.beq a b && GoVal.beqList as bs
  | _, _ => false

end

instance : BEq GoVal := ⟨GoVal.beq⟩

/-- Bind-variable map `map[string]interface{}`, as an association list. -/
abbrev BindVars := List (String × GoVal)

/-- Map lookup `bindVars[name]`. -/
def lookupBV (bv : BindVars) (name : String) : Option GoVal :=
  (bv.find? (fun p => p.1 == name)).map (·.2)

/-- Map update `bv[name] = v` (replace an existing key or append). -/
def bvSet (bv : BindVars) (name : String) (v : GoVal) : BindVars :=
  match bv with
  | [] => [(name, v)]
  | (k, w) :: rest =>
      if k = name then (k, v) :: rest else (k, w) :: bvSet rest name v

mutual

/-- Rendering of a value by `fmt` verb `%v`, used in router error messages and
in the routing comment. -/
def goFmt : GoVal → String
  | .str s => s
  | .bytes b => b
  | .vint n => toString n
  | .vnil => "<nil>"
  | .vlist l => "[" ++ goFmtInner l ++ "]"

/-- Space-separated rendering of the elements of a slice. -/
def goFmtInner : List GoVal → String
  | [] => ""
  | [v] => goFmt v
  | v :: rest => goFmt v ++ " " ++ goFmtInner rest

end

/-- Rendering of a `[]interface{}` by `%+v`. -/
def goFmtList (l : List GoVal) : String :=
  "[" ++ goFmtInner l ++ "]"

/-- Result of running router code: a normal value, an error returned to the
caller, or a Go runtime panic. -/
inductive Outcome (α : Type) where
  | ok (a : α)
  | err (msg : String)
  | panic (msg : String)

/-- Functorial action on the `ok` case. -/
def Outcome.map {α β : Type} (f : α → β) : Outcome α → Outcome β
  | .ok a => .ok (f a)
  | .err e => .err e
  | .panic m => .panic m

/-- Embed an external call result (`Except`) into an `Outcome`. -/
def ofExcept {α : Type} : Except String α → Outcome α
  | .ok a => .ok a
  | .error e => .err e

/-- Substitutes bind-var references in the plan-supplied value list, mirroring
`resolveKeys` in router.go: a `string` item has its first byte stripped and the
remainder looked up among the bind variables (an empty string makes the Go
slice expression `val[1:]` panic), a `[]byte` item is converted to text, and
every other item passes through. -/
def resolveKeys : List GoVal → BindVars → Outcome (List GoVal)
  | [], _ => .ok []
  | v :: rest, bv =>
    match v with
    | .str s =>
      if s = "" then .panic "runtime error: slice bounds out of range [1:0]"
      else
        match lookupBV bv (s.drop 1) with
        | none => .err ("could not find bind var " ++ s)
        | some w => (resolveKeys rest bv).map (fun ks => w :: ks)
    | .bytes b => (resolveKeys rest bv).map (fun ks => GoVal.str b :: ks)
    | other => (resolveKeys rest bv).map (fun ks => other :: ks)

/-- A keyspace id: an opaque ordered byte string (`key.KeyspaceId`).  The
sentinel `key.MinKey` is the empty string. -/
abbrev Ksid := String

/-- The distinguished unroutable keyspace id `key.MinKey`. -/
def MinKey : Ksid := ""

/-- Reserved bind-variable name written by DML executors (`ksidName`). -/
def ksidName : String := "keyspace_id"

/-- The trailing routing comment appended to rewritten DML, instantiating the
format string `dmlPostfix = " /* _routing keyspace_id:%v */"` at a keyspace
id. -/
def dmlSuffix (ksid : Ksid) : String :=
  " /* _routing keyspace_id:" ++ ksid ++ " */"

/-- Modelled from the spec: `planbuilder.ListVarName`, the planner-chosen name
of the per-shard IN-list bind variable (its concrete spelling is immaterial to
the claims). -/
def listVarName : String := "_vals"

/-- An observable side-effecting interaction of the router with its
collaborators.  `execDML` tags the three base-DML dispatch sites
(`execUpdateEqual`, `execDeleteEqual`, `execInsertSharded`); `execQuery` tags
the read dispatch sites, including that of the vindex-deletion subquery;
`execMulti` tags `ScatterConn.ExecuteMulti`; `bindVarSet` records a mutation
of the statement's bind-variable map; the `vindex*` events record calls into
a vindex's backing table. -/
inductive Event where
  | execDML (sql ks : String) (shards : List String)
  | execQuery (sql ks : String) (shards : List String)
  | execMulti (sql ks : String) (shardVars : List (String × BindVars))
  | bindVarSet (name : String) (v : GoVal)
  | vindexCreate (col : String) (v : GoVal)
  | vindexCreateLookup (col : String) (v : GoVal) (ksid : Ksid)
  | vindexGenerate (col : String)
  | vindexGenerateLookup (col : String) (ksid : Ksid)
  | vindexDelete (col : String) (ids : List GoVal) (ksid : Ksid)

/-- A router computation: its outcome together with the trace of events it
performed, in order. -/
abbrev RM (α : Type) := Outcome α × List Event

/-- The scatter executor's `mproto.QueryResult` (fields irrelevant to the
claims are omitted; `Convert` is an `Env` oracle so `Fields` is not needed). -/
structure QueryResult where
  rows : List (List GoVal)
  rowsAffected : Nat
  insertId : Nat

/-- The zero result `&mproto.QueryResult{}`. -/
def emptyResult : QueryResult := { rows := [], rowsAffected := 0, insertId := 0 }

/-- Go conversion `uint64(generated)` of an `int64`. -/
def toUInt64model (g : Int) : Nat := (g.emod (2 ^ 64)).toNat

/-- The `planbuilder.Functional` interface: a vindex owning a direct
value-to-ksid table (`Create(value)`, `Delete(ids, ksid)`). -/
structure FunctionalOps where
  create : GoVal → Except String Unit
  vdelete : List GoVal → Ksid → Except String Unit

/-- The `planbuilder.Lookup` interface (`Create(value, ksid)`,
`Delete(ids, ksid)`). -/
structure LookupOps where
  create : GoVal → Ksid → Except String Unit
  vdelete : List GoVal → Ksid → Except String Unit

/-- A vindex as the router consumes it: the base `Verify` operation plus the
optional interfaces the router type-switches on.  A field being `some` means
the Go type assertion to that interface succeeds, and the carried function is
the implementation's response.  (The implementations live outside the router;
their side effects are recorded as trace events at the router's call sites.) -/
structure Vindex where
  verify : GoVal → Ksid → Except String Bool := fun _ _ => Except.ok true
  uniqueMap : Option (List GoVal → Except String (List Ksid)) := none
  nonUniqueMap : Option (List GoVal → Except String (List (List Ksid))) := none
  functional : Option FunctionalOps := none
  lookup : Option LookupOps := none
  funcGen : Option (Except String Int) := none
  lookupGen : Option (Ksid → Except String Int) := none
  reverse : Option (Ksid → Except String GoVal) := none

/-- A table column bound to a vindex (`planbuilder.ColVindex`). -/
structure ColVindex where
  col : String
  owned : Bool
  vindex : Vindex

/-- The slice of `planbuilder.Table` the router reads: keyspace name, the
ordered ColVindex list, and the owned ColVindexes (`Table.Owned`). -/
structure Table where
  keyspaceName : String
  colVindexes : List ColVindex
  ownedVindexes : List ColVindex

/-- Plan kinds (`planbuilder.PlanID`). -/
inductive PlanID where
  | SelectUnsharded | SelectEqual | SelectIN | SelectKeyrange | SelectScatter
  | UpdateUnsharded | DeleteUnsharded | InsertUnsharded
  | UpdateEqual | DeleteEqual | InsertSharded

/-- The plan shape the planner hands the router. -/
structure Plan where
  id : PlanID
  values : GoVal
  rewritten : String
  subquery : String
  table : Table
  colVindex : ColVindex

/-- The inbound query: SQL text and bind variables (tablet type and session
are opaque pass-through values and are omitted). -/
structure Query where
  sql : String
  bindVars : BindVars

/-- A half-open key range (`key.KeyRange`), `start` inclusive and `endk`
exclusive. -/
structure KeyRange where
  start : Ksid
  endk : Ksid

/-- Responses of the external collaborators the router consumes, one oracle
per call: `getKeyspaceShards` (by keyspace name), `getShardForKeyspaceId`
(over the fetched shard list), `ScatterConn.Execute`/`ExecuteMulti` (by SQL
text), `mapExactShards` (by key range), and `mproto.Convert` (by column
index, standing for the column's field type). -/
structure Env where
  topo : String → Except String (String × List String)
  shardFor : List String → Ksid → Except String String
  scatter : String → Except String QueryResult
  scatterMulti : String → Except String QueryResult
  mapExact : KeyRange → Except String (String × List String)
  convert : Nat → GoVal → Except String GoVal

/-- Modelled from the spec: the routing map (shard name to the list of
originating input keys), `routingMap` in the vtgate package but outside the
provided source file. -/
abbrev RoutingMap := List (String × List GoVal)

/-- Modelled from the spec: `routingMap.Add`, appending a key to its shard's
bucket. -/
def routingAdd (m : RoutingMap) (shard : String) (v : GoVal) : RoutingMap :=
  match m with
  | [] => [(shard, [v])]
  | (s, vs) :: rest =>
      if s = shard then (s, vs ++ [v]) :: rest else (s, vs) :: routingAdd rest shard v

/-- Modelled from the spec: `routingMap.Shards`, the list of shard names. -/
def routingShards (m : RoutingMap) : List String := m.map (·.1)

/-- Interpret the resolved keys as keyrange endpoints (`getKeyRange`): every
key must be a string, and the first two become `Start` and `End` of the
range.  With fewer than two keys the Go index expressions `ksids[0]` /
`ksids[1]` panic. -/
def getKeyRange (keys : List GoVal) : Outcome KeyRange :=
  match collectStrings keys with
  | none => .err ("expecting strings for keyrange: " ++ goFmtList keys)
  | some ksids =>
    match ksids with
    | k0 :: k1 :: _ => .ok { start := k0, endk := k1 }
    | _ => .panic "runtime error: index out of range"
where
  /-- The accumulation loop of `getKeyRange`: all keys as strings, or `none`
  at the first non-string. -/
  collectStrings : List GoVal → Option (List String)
    | [] => some []
    | .str s :: rest => (collectStrings rest).map (s :: ·)
    | _ :: _ => none

/-- The per-ksid loop of `resolveShards` for a `Unique` vindex: skip `MinKey`
images, locate each remaining ksid's shard, and record the originating key
(`vindexKeys[i]`, a panic when the mapper returned more images than keys). -/
def uniqueRoute (env : Env) (allShards : List String) (keys : List GoVal) :
    List Ksid → Nat → RoutingMap → Outcome RoutingMap
  | [], _, routing => .ok routing
  | ksid :: rest, i, routing =>
    if ksid = MinKey then uniqueRoute env allShards keys rest (i + 1) routing
    else
      match env.shardFor allShards ksid with
      | .error e => .err e
      | .ok shard =>
        match keys.get? i with
        | none => .panic "runtime error: index out of range"
        | some k => uniqueRoute env allShards keys rest (i + 1) (routingAdd routing shard k)

/-- The inner per-ksid loop of `resolveShards` for a `NonUnique` vindex: one
key's image set fanned out; `kopt` is `vindexKeys[i]` when it exists, its
access panicking only after the shard lookup succeeds, as in the source. -/
def nonUniqueRouteOne (env : Env) (allShards : List String) (kopt : Option GoVal) :
    List Ksid → RoutingMap → Outcome RoutingMap
  | [], routing => .ok routing
  | ksid :: rest, routing =>
    if ksid = MinKey then nonUniqueRouteOne env allShards kopt rest routing
    else
      match env.shardFor allShards ksid with
      | .error e => .err e
      | .ok shard =>
        match kopt with
        | none => .panic "runtime error: index out of range"
        | some k => nonUniqueRouteOne env allShards kopt rest (routingAdd routing shard k)

/-- The outer loop of `resolveShards` for a `NonUnique` vindex. -/
def nonUniqueRoute (env : Env) (allShards : List String) (keys : List GoVal) :
    List (List Ksid) → Nat → RoutingMap → Outcome RoutingMap
  | [], _, routing => .ok routing
  | ksids :: rest, i, routing =>
    match nonUniqueRouteOne env allShards (keys.get? i) ksids routing with
    | .ok routing2 => nonUniqueRoute env allShards keys rest (i + 1) routing2
    | .err e => .err e
    | .panic m => .panic m

/-- Multi-key shard resolution (`resolveShards`): fetch the keyspace's shard
list, map the keys through the plan's routing vindex (type-switching on
`Unique` then `NonUnique`; anything else panics), and accumulate the routing
map.  On the error paths the Go named results are the zero values
`("", nil)`. -/
def resolveShards (env : Env) (vindexKeys : List GoVal) (plan : Plan) :
    Outcome (String × RoutingMap) :=
  match env.topo plan.table.keyspaceName with
  | .error e => .err e
  | .ok (newKeyspace, allShards) =>
    match plan.colVindex.vindex.uniqueMap with
    | some mapper =>
      match mapper vindexKeys with
      | .error e => .err e
      | .ok ksids =>
        (uniqueRoute env allShards vindexKeys ksids 0 []).map
          (fun routing => (newKeyspace, routing))
    | none =>
      match plan.colVindex.vindex.nonUniqueMap with
      | some mapper =>
        match mapper vindexKeys with
        | .error e => .err e
        | .ok ksidss =>
          (nonUniqueRoute env allShards vindexKeys ksidss 0 []).map
            (fun routing => (newKeyspace, routing))
      | none => .panic "unexpected"

/-- Single-key shard resolution for equal-predicate DML
(`resolveSingleShard`).  The routing vindex must be `Unique` (else a panic),
its image list must be a singleton (else a panic), and a `MinKey` image
short-circuits to `("", "", MinKey)` with no error. -/
def resolveSingleShard (env : Env) (vindexKey : GoVal) (plan : Plan) :
    Outcome (String × String × Ksid) :=
  match env.topo plan.table.keyspaceName with
  | .error e => .err e
  | .ok (newKeyspace, allShards) =>
    match plan.colVindex.vindex.uniqueMap with
    | none => .panic "unexpected"
    | some mapper =>
      match mapper [vindexKey] with
      | .error e => .err e
      | .ok ksids =>
        match ksids with
        | [ksid] =>
          if ksid = MinKey then .ok ("", "", ksid)
          else
            match env.shardFor allShards ksid with
            | .error e => .err e
            | .ok shard => .ok (newKeyspace, shard, ksid)
        | _ => .panic "unexpected"

/-- Locate the insert shard from the primary ksid (`getRouting`). -/
def getRouting (env : Env) (keyspace : String) (ksid : Ksid) :
    Except String (String × String) :=
  match env.topo keyspace with
  | .error e => .error e
  | .ok (newKeyspace, allShards) =>
    match env.shardFor allShards ksid with
    | .error e => .error e
    | .ok shard => .ok (newKeyspace, shard)

/-- Primary-ColVindex handling on insert (`handlePrimary`): for an owned
vindex a missing value is generated (`FunctionalGenerator`) and a supplied
value is created (`Functional`, an unchecked type assertion); the value is
then mapped through the `Unique` vindex (another unchecked assertion), a
`MinKey` image is an error, and the value is echoed into bind var
`_<col>`. -/
def handlePrimary (vindexKey : GoVal) (cv : ColVindex) : RM (Ksid × Int) :=
  match step1 with
  | (.err e, t) => (.err e, t)
  | (.panic m, t) => (.panic m, t)
  | (.ok (key', generated), t) =>
    if key' == GoVal.vnil then
      (.err ("value must be supplied for column " ++ cv.col), t)
    else
      match cv.vindex.uniqueMap with
      | none => (.panic "interface conversion", t)
      | some mapper =>
        match mapper [key'] with
        | .error e => (.err e, t)
        | .ok ksids =>
          match ksids with
          | [] => (.panic "runtime error: index out of range", t)
          | ksid :: _ =>
            if ksid = MinKey then
              (.err ("could not map " ++ goFmt key' ++ " to a keyspace id"), t)
            else
              (.ok (ksid, generated), t ++ [Event.bindVarSet ("_" ++ cv.col) key'])
where
  /-- The ownership phase: the supplied-or-generated value and the generated
  counter. -/
  step1 : RM (GoVal × Int) :=
    if cv.owned then
      if vindexKey == GoVal.vnil then
        match cv.vindex.funcGen with
        | none => (.err ("value must be supplied for column " ++ cv.col), [])
        | some gen =>
          match gen with
          | .error e => (.err e, [Event.vindexGenerate cv.col])
          | .ok n => (.ok (GoVal.vint n, n), [Event.vindexGenerate cv.col])
      else
        match cv.vindex.functional with
        | none => (.panic "interface conversion", [])
        | some fops =>
          match fops.create vindexKey with
          | .error e => (.err e, [Event.vindexCreate cv.col vindexKey])
          | .ok _ => (.ok (vindexKey, 0), [Event.vindexCreate cv.col vindexKey])
    else (.ok (vindexKey, 0), [])

/-- Secondary-ColVindex handling on insert (`handleNonPrimary`): the four
cases of owned and value-supplied, echoing the resolved value into
`_<col>`. -/
def handleNonPrimary (vindexKey : GoVal) (cv : ColVindex) (ksid : Ksid) : RM Int :=
  if cv.owned then
    if vindexKey == GoVal.vnil then
      match cv.vindex.lookupGen with
      | none => (.err ("value must be supplied for column " ++ cv.col), [])
      | some gen =>
        match gen ksid with
        | .error e => (.err e, [Event.vindexGenerateLookup cv.col ksid])
        | .ok n =>
          (.ok n, [Event.vindexGenerateLookup cv.col ksid,
                   Event.bindVarSet ("_" ++ cv.col) (GoVal.vint n)])
    else
      match cv.vindex.lookup with
      | none => (.panic "interface conversion", [])
      | some lops =>
        match lops.create vindexKey ksid with
        | .error e => (.err e, [Event.vindexCreateLookup cv.col vindexKey ksid])
        | .ok _ =>
          (.ok 0, [Event.vindexCreateLookup cv.col vindexKey ksid,
                   Event.bindVarSet ("_" ++ cv.col) vindexKey])
  else
    if vindexKey == GoVal.vnil then
      match cv.vindex.reverse with
      | none => (.err ("value must be supplied for column " ++ cv.col), [])
      | some rev =>
        match rev ksid with
        | .error e => (.err e, [])
        | .ok v =>
          if v == GoVal.vnil then
            (.err ("could not compute value for column " ++ cv.col), [])
          else (.ok 0, [Event.bindVarSet ("_" ++ cv.col) v])
    else
      match cv.vindex.verify vindexKey ksid with
      | .error e => (.err e, [])
      | .ok false =>
        (.err ("value " ++ goFmt vindexKey ++ " for column " ++ cv.col ++
               " does not map to keyspace id " ++ ksid), [])
      | .ok true => (.ok 0, [Event.bindVarSet ("_" ++ cv.col) vindexKey])

/-- The secondary loop of `execInsertSharded` over `keys[1:]` and
`ColVindexes[1:]`, tracking the single permitted generated value. -/
def insertLoop : List GoVal → List ColVindex → Ksid → Int → RM Int
  | [], _, _, generated => (.ok generated, [])
  | _ :: _, [], _, _ => (.panic "runtime error: index out of range", [])
  | k :: ks, cv :: cvs, ksid, generated =>
    match handleNonPrimary k cv ksid with
    | (.err e, t) => (.err e, t)
    | (.panic m, t) => (.panic m, t)
    | (.ok newgen, t) =>
      if newgen ≠ 0 then
        if generated ≠ 0 then (.err "insert generated more than one value", t)
        else
          let r := insertLoop ks cvs ksid newgen
          (r.1, t ++ r.2)
      else
        let r := insertLoop ks cvs ksid generated
        (r.1, t ++ r.2)

/-- Byte strings are interned as text before being used as Go map keys, as in
the `switch` inside `deleteVindexEntries`. -/
def internVal : GoVal → GoVal
  | .bytes b => .str b
  | v => v

/-- De-duplication by Go map insertion (`keys[k] = true`), keeping the first
occurrence of each value. -/
def dedupVals (seen : List GoVal) : List GoVal → List GoVal
  | [] => []
  | x :: xs =>
    if seen.any (fun y => GoVal.beq y x) then dedupVals seen xs
    else x :: dedupVals (x :: seen) xs

/-- Column `i` of every subquery row, converted by `mproto.Convert` and
interned; a missing column is a Go index panic. -/
def collectColumn (env : Env) (i : Nat) : List (List GoVal) → Outcome (List GoVal)
  | [] => .ok []
  | row :: rest =>
    match row.get? i with
    | none => .panic "runtime error: index out of range"
    | some raw =>
      match env.convert i raw with
      | .error e => .err e
      | .ok k => (collectColumn env i rest).map (fun ks => internVal k :: ks)

/-- The per-owned-ColVindex loop of `deleteVindexEntries`: collect and
de-duplicate column `i`'s values, then dispatch `Delete` through the
`Functional` or `Lookup` interface (anything else panics, with the source's
misspelled message). -/
def delLoop (env : Env) (ksid : Ksid) (rows : List (List GoVal)) :
    List ColVindex → Nat → RM Unit
  | [], _ => (.ok (), [])
  | cv :: rest, i =>
    match collectColumn env i rows with
    | .err e => (.err e, [])
    | .panic m => (.panic m, [])
    | .ok vals =>
      let ids := dedupVals [] vals
      match cv.vindex.functional with
      | some fops =>
        match fops.vdelete ids ksid with
        | .error e => (.err e, [Event.vindexDelete cv.col ids ksid])
        | .ok _ =>
          let r := delLoop env ksid rows rest (i + 1)
          (r.1, Event.vindexDelete cv.col ids ksid :: r.2)
      | none =>
        match cv.vindex.lookup with
        | some lops =>
          match lops.vdelete ids ksid with
          | .error e => (.err e, [Event.vindexDelete cv.col ids ksid])
          | .ok _ =>
            let r := delLoop env ksid rows rest (i + 1)
            (r.1, Event.vindexDelete cv.col ids ksid :: r.2)
        | none => (.panic "unexpceted", [])

/-- The owned-vindex deletion protocol (`deleteVindexEntries`): run the
plan's subquery on the delete's target shard, return early on zero rows,
panic on a row-width mismatch with `Table.Owned`, and otherwise delete each
owned ColVindex's collected values. -/
def deleteVindexEntries (env : Env) (plan : Plan) (ks shard : String)
    (ksid : Ksid) : RM Unit :=
  let ev := Event.execQuery plan.subquery ks [shard]
  match env.scatter plan.subquery with
  | .error e => (.err e, [ev])
  | .ok result =>
    match result.rows with
    | [] => (.ok (), [ev])
    | row0 :: _ =>
      if row0.length ≠ plan.table.ownedVindexes.length then (.panic "unexpected", [ev])
      else
        let r := delLoop env ksid result.rows plan.table.ownedVindexes 0
        (r.1, ev :: r.2)

/-- The shared tail of the three sharded-DML executors: bind
`keyspace_id = ksid`, append the routing comment to the rewritten SQL, and
dispatch to the single shard. -/
def dmlDispatch (env : Env) (plan : Plan) (ks shard : String) (ksid : Ksid) :
    RM QueryResult :=
  let rewritten := plan.rewritten ++ dmlSuffix ksid
  (ofExcept (env.scatter rewritten),
   [Event.bindVarSet ksidName (GoVal.str ksid),
    Event.execDML rewritten ks [shard]])

/-- The unsharded executor (`execUnsharded`): the keyspace must have exactly
one shard, and the original SQL is dispatched unchanged. -/
def execUnsharded (env : Env) (plan : Plan) (q : Query) : RM QueryResult :=
  match env.topo plan.table.keyspaceName with
  | .error e => (.err e, [])
  | .ok (ks, allShards) =>
    match allShards with
    | [shard] =>
      (ofExcept (env.scatter q.sql), [Event.execQuery q.sql ks [shard]])
    | _ =>
      (.err ("unsharded keyspace " ++ ks ++ " has multiple shards: " ++
             "[" ++ String.intercalate " " allShards ++ "]"), [])

/-- The `SelectEqual` executor.  NOTE: the source assigns but never checks
the error from `resolveShards` (`ks, routing, err := ...` with no
`if err != nil`), so on a resolution failure the Go named results fall back
to their zero values `("", nil)` and the dispatch proceeds anyway; a panic
from `resolveShards` still propagates. -/
def execSelectEqual (env : Env) (plan : Plan) (q : Query) : RM QueryResult :=
  match resolveKeys [plan.values] q.bindVars with
  | .err e => (.err e, [])
  | .panic m => (.panic m, [])
  | .ok keys =>
    match resolveShards env keys plan with
    | .panic m => (.panic m, [])
    | .err _ =>
      (ofExcept (env.scatter plan.rewritten),
       [Event.execQuery plan.rewritten "" []])
    | .ok (ks, routing) =>
      (ofExcept (env.scatter plan.rewritten),
       [Event.execQuery plan.rewritten ks (routingShards routing)])

/-- Per-shard bind bundles for `SelectIN`: each shard's copy of the bind map
gains a `ListVarName` entry holding that shard's keys. -/
def shardVarsOf (bv : BindVars) (routing : RoutingMap) : List (String × BindVars) :=
  routing.map (fun p => (p.1, bvSet bv listVarName (GoVal.vlist p.2)))

/-- The `SelectIN` executor, with the same unchecked `resolveShards` error as
`execSelectEqual` (a nil routing map yields an empty shard-var set). -/
def execSelectIN (env : Env) (plan : Plan) (q : Query) : RM QueryResult :=
  match plan.values with
  | .vlist vals =>
    match resolveKeys vals q.bindVars with
    | .err e => (.err e, [])
    | .panic m => (.panic m, [])
    | .ok keys =>
      match resolveShards env keys plan with
      | .panic m => (.panic m, [])
      | .err _ =>
        (ofExcept (env.scatterMulti plan.rewritten),
         [Event.execMulti plan.rewritten "" []])
      | .ok (ks, routing) =>
        (ofExcept (env.scatterMulti plan.rewritten),
         [Event.execMulti plan.rewritten ks (shardVarsOf q.bindVars routing)])
  | _ => (.panic "interface conversion", [])

/-- The `SelectKeyrange` executor: the resolved keys become a key range, the
range is resolved to shards, and exactly one shard is required. -/
def execSelectKeyrange (env : Env) (plan : Plan) (q : Query) : RM QueryResult :=
  match plan.values with
  | .vlist vals =>
    match resolveKeys vals q.bindVars with
    | .err e => (.err e, [])
    | .panic m => (.panic m, [])
    | .ok keys =>
      match getKeyRange keys with
      | .err e => (.err e, [])
      | .panic m => (.panic m, [])
      | .ok kr =>
        match env.mapExact kr with
        | .error e => (.err e, [])
        | .ok (ks, shards) =>
          match shards with
          | [shard] =>
            (ofExcept (env.scatter plan.rewritten),
             [Event.execQuery plan.rewritten ks [shard]])
          | _ =>
            (.err ("keyrange must match exactly one shard: " ++ goFmtList keys), [])
  | _ => (.panic "interface conversion", [])

/-- The `SelectScatter` executor: all shards of the keyspace. -/
def execSelectScatter (env : Env) (plan : Plan) (_q : Query) : RM QueryResult :=
  match env.topo plan.table.keyspaceName with
  | .error e => (.err e, [])
  | .ok (ks, allShards) =>
    (ofExcept (env.scatter plan.rewritten),
     [Event.execQuery plan.rewritten ks allShards])

/-- The `UpdateEqual` executor: resolve the single key, short-circuit on
`MinKey` with an empty result and zero side effects, else dispatch with the
routing comment. -/
def execUpdateEqual (env : Env) (plan : Plan) (q : Query) : RM QueryResult :=
  match resolveKeys [plan.values] q.bindVars with
  | .err e => (.err e, [])
  | .panic m => (.panic m, [])
  | .ok keys =>
    match keys with
    | [] => (.panic "runtime error: index out of range", [])
    | k :: _ =>
      match resolveSingleShard env k plan with
      | .err e => (.err e, [])
      | .panic m => (.panic m, [])
      | .ok (ks, shard, ksid) =>
        if ksid = MinKey then (.ok emptyResult, [])
        else dmlDispatch env plan ks shard ksid

/-- The `DeleteEqual` executor: like `execUpdateEqual`, but when the plan
carries a subquery the owned-vindex deletion protocol must complete before
the base delete is dispatched, and any error in it aborts the statement. -/
def execDeleteEqual (env : Env) (plan : Plan) (q : Query) : RM QueryResult :=
  match resolveKeys [plan.values] q.bindVars with
  | .err e => (.err e, [])
  | .panic m => (.panic m, [])
  | .ok keys =>
    match keys with
    | [] => (.panic "runtime error: index out of range", [])
    | k :: _ =>
      match resolveSingleShard env k plan with
      | .err e => (.err e, [])
      | .panic m => (.panic m, [])
      | .ok (ks, shard, ksid) =>
        if ksid = MinKey then (.ok emptyResult, [])
        else
          if plan.subquery ≠ "" then
            match deleteVindexEntries env plan ks shard ksid with
            | (.err e, t0) => (.err e, t0)
            | (.panic m, t0) => (.panic m, t0)
            | (.ok _, t0) =>
              let r := dmlDispatch env plan ks shard ksid
              (r.1, t0 ++ r.2)
          else dmlDispatch env plan ks shard ksid

/-- The `InsertSharded` executor: primary ColVindex first (its ksid routes
the row), then the secondaries, enforcing at most one generated value; after
the dispatch a generated value becomes the result's insert id unless the
backend produced one too. -/
def execInsertSharded (env : Env) (plan : Plan) (q : Query) : RM QueryResult :=
  match plan.values with
  | .vlist input =>
    match resolveKeys input q.bindVars with
    | .err e => (.err e, [])
    | .panic m => (.panic m, [])
    | .ok keys =>
      match keys, plan.table.colVindexes with
      | [], _ => (.panic "runtime error: index out of range", [])
      | _ :: _, [] => (.panic "runtime error: index out of range", [])
      | k0 :: krest, cv0 :: cvrest =>
        match handlePrimary k0 cv0 with
        | (.err e, t1) => (.err e, t1)
        | (.panic m, t1) => (.panic m, t1)
        | (.ok (ksid, gen0), t1) =>
          match getRouting env plan.table.keyspaceName ksid with
          | .error e => (.err e, t1)
          | .ok (ks, shard) =>
            match insertLoop krest cvrest ksid gen0 with
            | (.err e, t2) => (.err e, t1 ++ t2)
            | (.panic m, t2) => (.panic m, t1 ++ t2)
            | (.ok generated, t2) =>
              let rewritten := plan.rewritten ++ dmlSuffix ksid
              let t3 := t1 ++ t2 ++
                [Event.bindVarSet ksidName (GoVal.str ksid),
                 Event.execDML rewritten ks [shard]]
              match env.scatter rewritten with
              | .error e => (.err e, t3)
              | .ok result =>
                if generated ≠ 0 then
                  if result.insertId ≠ 0 then
                    (.err "vindex and db generated a value each for insert", t3)
                  else
                    (.ok { result with insertId := toUInt64model generated }, t3)
                else (.ok result, t3)
  | _ => (.panic "interface conversion", [])

/-- The plan dispatcher (`Router.Execute`), branching on the plan kind.  The
planner lookup is external, so the plan is a parameter. -/
def Execute (env : Env) (plan : Plan) (q : Query) : RM QueryResult :=
  match plan.id with
  | .SelectUnsharded => execUnsharded env plan q
  | .UpdateUnsharded => execUnsharded env plan q
  | .DeleteUnsharded => execUnsharded env plan q
  | .InsertUnsharded => execUnsharded env plan q
  | .SelectEqual => execSelectEqual env plan q
  | .SelectIN => execSelectIN env plan q
  | .SelectKeyrange => execSelectKeyrange env plan q
  | .SelectScatter => execSelectScatter env plan q
  | .UpdateEqual => execUpdateEqual env plan q
  | .DeleteEqual => execDeleteEqual env plan q
  | .InsertSharded => execInsertSharded env plan q

/-- Whether an event is a base-DML dispatch to the scatter executor. -/
def Event.isDML : Event → Bool
  | .execDML _ _ _ => true
  | _ => false

/-- A trace free of base-DML dispatches. -/
def noDML (t : List Event) : Bool := t.all (fun e => !e.isDML)

/-- Every base-DML dispatch in the trace carries the rewritten SQL followed by
the routing comment of some keyspace id that the trace also binds into the
`keyspace_id` bind variable. -/
def dmlTraceOk (rw : String) (t : List Event) : Prop :=
  ∀ sql ks shards, Event.execDML sql ks shards ∈ t →
    ∃ ksid, sql = rw ++ dmlSuffix ksid ∧
      Event.bindVarSet ksidName (GoVal.str ksid) ∈ t

/-- The number of nonzero entries of an integer list. -/
def countNZ : List Int → Nat
  | [] => 0
  | g :: gs => (if g ≠ 0 then 1 else 0) + countNZ gs

/-- The first nonzero entry of an integer list, or `0`. -/
def firstNZ : List Int → Int
  | [] => 0
  | g :: gs => if g ≠ 0 then g else firstNZ gs

/-- A query with empty SQL and no bind variables, for concrete scenarios. -/
def qEmpty : Query := { sql := "", bindVars := [] }

/-- A canned scatter-executor response for concrete scenarios. -/
def r1 : QueryResult := { rows := [[GoVal.vint 42]], rowsAffected := 0, insertId := 0 }

/-- A unique hash-style vindex fixture sending every key to `"K1"`. -/
def vindexHash : Vindex :=
  { uniqueMap := some (fun ks => .ok (ks.map (fun _ => "K1"))) }

/-- The `user.id` ColVindex fixture (unique, non-owned). -/
def cvHash : ColVindex := { col := "id", owned := false, vindex := vindexHash }

/-- A non-unique lookup vindex fixture. -/
def vindexMulti : Vindex :=
  { nonUniqueMap := some (fun ks => .ok (ks.map (fun _ => ["K1"]))) }

/-- A ColVindex over the non-unique fixture. -/
def cvMulti : ColVindex := { col := "name", owned := false, vindex := vindexMulti }

/-- A vindex that asserts to neither `Unique` nor `NonUnique`. -/
def vindexBare : Vindex := {}

/-- A ColVindex over the capability-free vindex. -/
def cvBare : ColVindex := { col := "c", owned := false, vindex := vindexBare }

/-- An owned lookup ColVindex fixture whose `Delete` always succeeds. -/
def cvOwnedLookup : ColVindex :=
  { col := "name", owned := true,
    vindex := { lookup := some { create := fun _ _ => .ok (),
                                 vdelete := fun _ _ => .ok () } } }

/-- The `user` table fixture routed by `cvHash`. -/
def tableUser : Table :=
  { keyspaceName := "TestRouter", colVindexes := [cvHash], ownedVindexes := [] }

/-- A `SelectEqual` plan over the `user` fixture. -/
def planSelEq : Plan :=
  { id := .SelectEqual, values := GoVal.vint 1,
    rewritten := "select id from user where id = 1", subquery := "",
    table := tableUser, colVindex := cvHash }

/-- A `SelectIN` plan over the `user` fixture. -/
def planSelIN : Plan :=
  { planSelEq with
    id := .SelectIN
    values := GoVal.vlist [GoVal.vint 1, GoVal.vint 2]
    rewritten := "select id from user where id in ::_vals" }

/-- An environment whose topology lookup fails and whose scatter executor
answers `r1` to everything. -/
def envTopoDown : Env :=
  { topo := fun _ => .error "topology lookup failed"
    shardFor := fun _ _ => .error "no shard covers the keyspace id"
    scatter := fun _ => .ok r1
    scatterMulti := fun _ => .ok r1
    mapExact := fun _ => .error "unused"
    convert := fun _ v => .ok v }

/-- A healthy two-shard environment. -/
def envOk : Env :=
  { topo := fun _ => .ok ("TestRouter", ["S0", "S1"])
    shardFor := fun _ _ => .ok "S0"
    scatter := fun _ => .ok r1
    scatterMulti := fun _ => .ok r1
    mapExact := fun _ => .ok ("TestRouter", ["S0"])
    convert := fun _ v => .ok v }

/-- C10: `resolveKeys` treats every string item in the values list as a
bind-var reference.  Second conjunct: for any nonempty string `s` — with no
sentinel-byte validation whatsoever — it drops exactly the first byte and
looks the remainder up in the bind-var map, substituting the value on a hit
and failing on a miss.  First conjunct: an empty-string item makes the Go
slice expression `val[1:]` panic (index out of range) instead of returning an
error. -/
theorem c10_resolveKeys_every_string_is_a_reference
    (s : String) (rest : List GoVal) (bv : BindVars) :
    resolveKeys (GoVal.str "" :: rest) bv
        = Outcome.panic "runtime error: slice bounds out of range [1:0]"
    ∧ (s ≠ "" →
        resolveKeys (GoVal.str s :: rest) bv
          = match lookupBV bv (s.drop 1) with
            | none => Outcome.err ("could not find bind var " ++ s)
            | some w => (resolveKeys rest bv).map (fun ks => w :: ks)) := by
  constructor
  · simp [resolveKeys]
  · intro h
    simp only [resolveKeys, if_neg h]

/-- Witness for C10: the plain two-byte string "ab" is misread as a reference
to bind variable "b", whose value is substituted. -/
theorem c10_witness :
    resolveKeys [GoVal.str "ab"] [("b", GoVal.vint 7)] = Outcome.ok [GoVal.vint 7] := by
  have h := (c10_resolveKeys_every_string_is_a_reference "ab" []
    [("b", GoVal.vint 7)]).2 (by decide)
  rw [h]; rfl

/-- Counterexample for C8: at the input list holding the single empty-string
item, `resolveKeys` neither returns an error nor an output list — it panics
(the Go slice expression `val[1:]` is out of range), so the claimed
error-or-list dichotomy fails. -/
theorem c8_counterexample_empty_string :
    resolveKeys [GoVal.str ""] []
      = Outcome.panic "runtime error: slice bounds out of range [1:0]" := rfl

/-- The element-wise substitution contract of `resolveKeys`: a string item
maps to the bind variable named by the string minus its first byte, a byte
string is converted to text, anything else passes through. -/
def keySpec (bv : BindVars) : GoVal → GoVal → Prop
  | .str s, w => lookupBV bv (s.drop 1) = some w
  | .bytes b, w => w = GoVal.str b
  | v, w => w = v

/-- C8 (amended: the claim holds for every input list without an empty-string
item; an empty-string item instead crashes, see the counterexample): under
that proviso `resolveKeys` either fails because some string item names a
missing bind variable, or returns a list of exactly the same length and
order related element-wise to the input by `keySpec`. -/
theorem c8_amended_resolveKeys_shape
    (vals : List GoVal) (bv : BindVars)
    (hne : ∀ s, GoVal.str s ∈ vals → s ≠ "") :
    (∃ s, GoVal.str s ∈ vals ∧ lookupBV bv (s.drop 1) = none ∧
        resolveKeys vals bv = Outcome.err ("could not find bind var " ++ s))
    ∨ (∃ keys, resolveKeys vals bv = Outcome.ok keys ∧
        keys.length = vals.length ∧ List.Forall₂ (keySpec bv) vals keys) := by
  induction vals with
  | nil => exact Or.inr ⟨[], rfl, rfl, List.Forall₂.nil⟩
  | cons v rest ih =>
    have hne' : ∀ s, GoVal.str s ∈ rest → s ≠ "" :=
      fun s hs => hne s (List.mem_cons_of_mem _ hs)
    rcases v with s | b | n | _ | l
    · have hs : s ≠ "" := hne s (List.mem_cons_self _ _)
      rcases hw : lookupBV bv (s.drop 1) with _ | w
      · refine Or.inl ⟨s, List.mem_cons_self _ _, hw, ?_⟩
        simp only [resolveKeys, if_neg hs, hw]
      · rcases ih hne' with ⟨s', hmem, hnone, heq⟩ | ⟨keys, heq, hlen, hall⟩
        · refine Or.inl ⟨s', List.mem_cons_of_mem _ hmem, hnone, ?_⟩
          simp only [resolveKeys, if_neg hs, hw, heq, Outcome.map]
        · refine Or.inr ⟨w :: keys, ?_, by simp [hlen], List.Forall₂.cons hw hall⟩
          simp only [resolveKeys, if_neg hs, hw, heq, Outcome.map]
    · rcases ih hne' with ⟨s', hmem, hnone, heq⟩ | ⟨keys, heq, hlen, hall⟩
      · exact Or.inl ⟨s', List.mem_cons_of_mem _ hmem, hnone, by
          simp only [resolveKeys, heq, Outcome.map]⟩
      · exact Or.inr ⟨GoVal.str b :: keys, by
          simp only [resolveKeys, heq, Outcome.map], by simp [hlen],
          List.Forall₂.cons rfl hall⟩
    · rcases ih hne' with ⟨s', hmem, hnone, heq⟩ | ⟨keys, heq, hlen, hall⟩
      · exact Or.inl ⟨s', List.mem_cons_of_mem _ hmem, hnone, by
          simp only [resolveKeys, heq, Outcome.map]⟩
      · exact Or.inr ⟨GoVal.vint n :: keys, by
          simp only [resolveKeys, heq, Outcome.map], by simp [hlen],
          List.Forall₂.cons rfl hall⟩
    · rcases ih hne' with ⟨s', hmem, hnone, heq⟩ | ⟨keys, heq, hlen, hall⟩
      · exact Or.inl ⟨s', List.mem_cons_of_mem _ hmem, hnone, by
          simp only [resolveKeys, heq, Outcome.map]⟩
      · exact Or.inr ⟨GoVal.vnil :: keys, by
          simp only [resolveKeys, heq, Outcome.map], by simp [hlen],
          List.Forall₂.cons rfl hall⟩
    · rcases ih hne' with ⟨s', hmem, hnone, heq⟩ | ⟨keys, heq, hlen, hall⟩
      · exact Or.inl ⟨s', List.mem_cons_of_mem _ hmem, hnone, by
          simp only [resolveKeys, heq, Outcome.map]⟩
      · exact Or.inr ⟨GoVal.vlist l :: keys, by
          simp only [resolveKeys, heq, Outcome.map], by simp [hlen],
          List.Forall₂.cons rfl hall⟩

/-- Witness for C8 (amended), at a three-item list exercising a reference, a
byte string, and a pass-through integer. -/
theorem c8_witness :
    (∃ s, GoVal.str s ∈ [GoVal.str ":a", GoVal.bytes "xy", GoVal.vint 3] ∧
        lookupBV [("a", GoVal.vint 9)] (s.drop 1) = none ∧
        resolveKeys [GoVal.str ":a", GoVal.bytes "xy", GoVal.vint 3]
            [("a", GoVal.vint 9)]
          = Outcome.err ("could not find bind var " ++ s))
    ∨ (∃ keys,
        resolveKeys [GoVal.str ":a", GoVal.bytes "xy", GoVal.vint 3]
            [("a", GoVal.vint 9)]
          = Outcome.ok keys ∧
        keys.length = 3 ∧
        List.Forall₂ (keySpec [("a", GoVal.vint 9)])
          [GoVal.str ":a", GoVal.bytes "xy", GoVal.vint 3] keys) := by
  have h := c8_amended_resolveKeys_shape
    [GoVal.str ":a", GoVal.bytes "xy", GoVal.vint 3] [("a", GoVal.vint 9)]
    (by intro s hs
        simp only [List.mem_cons, List.not_mem_nil, or_false] at hs
        rcases hs with h1 | h1 | h1
        · cases h1; decide
        · cases h1
        · cases h1)
  simpa using h

/-- A `DeleteEqual` plan whose subquery selects two columns while the table
owns a single ColVindex (the width-mismatch shape). -/
def planWidthMismatch : Plan :=
  { planSelEq with
    id := .DeleteEqual
    subquery := "select name from user where id = 1"
    table := { tableUser with ownedVindexes := [cvOwnedLookup] } }

/-- An environment whose scatter executor answers the deletion subquery with
two-column rows. -/
def envWidthMismatch : Env :=
  { envOk with
    scatter := fun _ =>
      .ok { rows := [[GoVal.vint 1, GoVal.vint 2]],
            rowsAffected := 0, insertId := 0 } }

/-- The `SelectEqual` plan re-routed through the `NonUnique`-only vindex. -/
def planNonUniqueEq : Plan := { planSelEq with colVindex := cvMulti }

/-- The `SelectEqual` plan re-routed through the capability-free vindex. -/
def planBareEq : Plan := { planSelEq with colVindex := cvBare }

/-- C1 (code bug, evaluated at the failing input): with the topology lookup
failing, `Execute` on a `SelectEqual` and on a `SelectIN` plan does not
return the resolution error — `execSelectEqual` and `execSelectIN` assign
but never check the error from `resolveShards` — and instead dispatches to
the scatter executor with the zero-value keyspace `""` and an empty routing,
returning the scatter result `r1`. -/
theorem c1_shard_resolution_error_is_swallowed :
    Execute envTopoDown planSelEq qEmpty
      = (Outcome.ok r1, [Event.execQuery planSelEq.rewritten "" []])
    ∧ Execute envTopoDown planSelIN qEmpty
      = (Outcome.ok r1, [Event.execMulti planSelIN.rewritten "" []]) :=
  ⟨rfl, rfl⟩

/-- Counterexample for C2: the router does not fail these statements with a
descriptive error result — it crashes.  At concrete inputs,
`resolveSingleShard` over a `NonUnique`-only vindex panics,
`resolveShards` over a vindex that is neither `Unique` nor `NonUnique`
panics, and `deleteVindexEntries` panics when the subquery row width differs
from the owned ColVindex count. -/
theorem c2_counterexample_panics :
    resolveSingleShard envOk (GoVal.vint 1) planNonUniqueEq
      = Outcome.panic "unexpected"
    ∧ resolveShards envOk [GoVal.vint 1] planBareEq
      = Outcome.panic "unexpected"
    ∧ (deleteVindexEntries envWidthMismatch planWidthMismatch
        "TestRouter" "S0" "K1").1
      = Outcome.panic "unexpected" :=
  ⟨rfl, rfl, rfl⟩

/-- C2 (amended: on each of these unexpected plan shapes the router raises a
Go runtime panic carrying the message "unexpected" — the source's invariant
check — rather than returning a descriptive error result): whenever the
routing vindex is not `Unique` where `Unique` is expected, or is neither
`Unique` nor `NonUnique` in `resolveShards`, or the deletion-subquery row
width differs from the owned ColVindex count, execution ends in
`Outcome.panic "unexpected"`. -/
theorem c2_amended_unexpected_shapes_panic :
    (∀ (env : Env) (plan : Plan) (k : GoVal) (ks : String) (shards : List String),
      env.topo plan.table.keyspaceName = .ok (ks, shards) →
      plan.colVindex.vindex.uniqueMap = none →
      resolveSingleShard env k plan = Outcome.panic "unexpected")
    ∧ (∀ (env : Env) (plan : Plan) (keys : List GoVal) (ks : String)
        (shards : List String),
      env.topo plan.table.keyspaceName = .ok (ks, shards) →
      plan.colVindex.vindex.uniqueMap = none →
      plan.colVindex.vindex.nonUniqueMap = none →
      resolveShards env keys plan = Outcome.panic "unexpected")
    ∧ (∀ (env : Env) (plan : Plan) (ks shard : String) (ksid : Ksid)
        (res : QueryResult) (row0 : List GoVal) (rest : List (List GoVal)),
      env.scatter plan.subquery = .ok res →
      res.rows = row0 :: rest →
      row0.length ≠ plan.table.ownedVindexes.length →
      deleteVindexEntries env plan ks shard ksid
        = (Outcome.panic "unexpected", [Event.execQuery plan.subquery ks [shard]])) := by
  refine ⟨?_, ?_, ?_⟩
  · intro env plan k ks shards htopo huniq
    unfold resolveSingleShard
    rw [htopo, huniq]
  · intro env plan keys ks shards htopo huniq hnon
    unfold resolveShards
    rw [htopo, huniq, hnon]
  · intro env plan ks shard ksid res row0 rest hscatter hrows hlen
    simp only [deleteVindexEntries, hscatter, hrows, if_pos hlen]

/-- Witness for C2 (amended), discharging the hypotheses at the concrete
fixture inputs of the counterexample. -/
theorem c2_witness :
    resolveSingleShard envOk (GoVal.vnil) planNonUniqueEq
      = Outcome.panic "unexpected"
    ∧ deleteVindexEntries envWidthMismatch planWidthMismatch "TestRouter" "S0" "K1"
      = (Outcome.panic "unexpected",
         [Event.execQuery "select name from user where id = 1" "TestRouter" ["S0"]]) := by
  constructor
  · exact c2_amended_unexpected_shapes_panic.1 envOk planNonUniqueEq GoVal.vnil
      "TestRouter" ["S0", "S1"] rfl rfl
  · have h := c2_amended_unexpected_shapes_panic.2.2 envWidthMismatch
      planWidthMismatch "TestRouter" "S0" "K1"
      { rows := [[GoVal.vint 1, GoVal.vint 2]], rowsAffected := 0, insertId := 0 }
      [GoVal.vint 1, GoVal.vint 2] [] rfl rfl (by decide)
    exact h

/-- A vindex every image of which is `MinKey`. -/
def vindexAllMinKey : Vindex :=
  { uniqueMap := some (fun ks => .ok (ks.map (fun _ => MinKey))) }

/-- An `UpdateEqual` plan routed by the all-`MinKey` vindex. -/
def planMinKeyUpd : Plan :=
  { planSelEq with
    id := .UpdateEqual
    rewritten := "update user set v = 1 where id = 1"
    colVindex := { col := "id", owned := false, vindex := vindexAllMinKey } }

/-- C3: whenever the primary routing vindex maps the resolved key of an
`UpdateEqual` or `DeleteEqual` to `MinKey`, the executor returns the empty
successful result with an empty trace — so no `keyspace_id` bind variable is
written, no vindex deletion runs, and nothing is dispatched to the scatter
executor. -/
theorem c3_minkey_dml_is_a_noop
    (env : Env) (plan : Plan) (q : Query) (k : GoVal)
    (ks : String) (shards : List String)
    (f : List GoVal → Except String (List Ksid))
    (h1 : resolveKeys [plan.values] q.bindVars = Outcome.ok [k])
    (h2 : env.topo plan.table.keyspaceName = .ok (ks, shards))
    (h3 : plan.colVindex.vindex.uniqueMap = some f)
    (h4 : f [k] = .ok [MinKey]) :
    execUpdateEqual env plan q = (Outcome.ok emptyResult, [])
    ∧ execDeleteEqual env plan q = (Outcome.ok emptyResult, []) := by
  have hres : resolveSingleShard env k plan = Outcome.ok ("", "", MinKey) := by
    simp only [resolveSingleShard, h2, h3, h4, MinKey, if_pos]
  constructor
  · simp only [execUpdateEqual, h1, hres, MinKey, if_pos]
  · simp only [execDeleteEqual, h1, hres, MinKey, if_pos]

/-- Witness for C3: a concrete `UpdateEqual`/`DeleteEqual` over a vindex
whose every image is `MinKey` returns the empty result with no side
effects. -/
theorem c3_witness :
    execUpdateEqual envOk planMinKeyUpd qEmpty = (Outcome.ok emptyResult, [])
    ∧ execDeleteEqual envOk planMinKeyUpd qEmpty = (Outcome.ok emptyResult, []) :=
  c3_minkey_dml_is_a_noop envOk planMinKeyUpd qEmpty (GoVal.vint 1)
    "TestRouter" ["S0", "S1"] (fun ks => .ok (ks.map (fun _ => MinKey)))
    rfl rfl rfl rfl

/-- Boolean equality of an integer value and `nil` is false. -/
theorem GoVal.vint_beq_vnil (n : Int) : (GoVal.vint n == GoVal.vnil) = false := rfl

/-- Boolean equality of `nil` with itself. -/
theorem GoVal.vnil_beq_vnil : (GoVal.vnil == GoVal.vnil) = true := rfl

/-- C4: on `InsertSharded`, a `MinKey` image of the primary value makes the
router return the "could not map" error with no DML dispatched, on each of
the three primary paths: a supplied value on a non-owned primary (first
conjunct); a supplied value on an owned primary, after its `Functional`
`Create` succeeded (second conjunct — the trace holds only the create call);
a value generated by an owned `FunctionalGenerator` (third conjunct — the
trace holds only the generate call). -/
theorem c4_insert_minkey_is_error
    (env : Env) (plan : Plan) (q : Query) (vs : List GoVal)
    (k : GoVal) (krest : List GoVal) (cv0 : ColVindex) (cvrest : List ColVindex)
    (f : List GoVal → Except String (List Ksid)) (n : Int) (fops : FunctionalOps)
    (hvals : plan.values = GoVal.vlist vs)
    (hkeys : resolveKeys vs q.bindVars = Outcome.ok (k :: krest))
    (hcvs : plan.table.colVindexes = cv0 :: cvrest) :
    (cv0.owned = false → (k == GoVal.vnil) = false →
      cv0.vindex.uniqueMap = some f → f [k] = .ok [MinKey] →
      execInsertSharded env plan q
        = (Outcome.err ("could not map " ++ goFmt k ++ " to a keyspace id"), []))
    ∧ (cv0.owned = true → (k == GoVal.vnil) = false →
      cv0.vindex.functional = some fops → fops.create k = Except.ok () →
      cv0.vindex.uniqueMap = some f → f [k] = .ok [MinKey] →
      execInsertSharded env plan q
        = (Outcome.err ("could not map " ++ goFmt k ++ " to a keyspace id"),
           [Event.vindexCreate cv0.col k]))
    ∧ (cv0.owned = true → k = GoVal.vnil →
      cv0.vindex.funcGen = some (Except.ok n) →
      cv0.vindex.uniqueMap = some f → f [GoVal.vint n] = .ok [MinKey] →
      execInsertSharded env plan q
        = (Outcome.err ("could not map " ++ goFmt (GoVal.vint n) ++ " to a keyspace id"),
           [Event.vindexGenerate cv0.col])) := by
  refine ⟨?_, ?_, ?_⟩
  · intro howned hknil huniq hmap
    have hp : handlePrimary k cv0
        = (Outcome.err ("could not map " ++ goFmt k ++ " to a keyspace id"), []) := by
      simp only [handlePrimary, handlePrimary.step1, howned, Bool.false_eq_true,
        if_false, hknil, huniq, hmap, MinKey, if_pos, List.append_nil]
    simp only [execInsertSharded, hvals, hkeys, hcvs, hp]
  · intro howned hknil hfunc hcreate huniq hmap
    have hp : handlePrimary k cv0
        = (Outcome.err ("could not map " ++ goFmt k ++ " to a keyspace id"),
           [Event.vindexCreate cv0.col k]) := by
      simp only [handlePrimary, handlePrimary.step1, howned, if_true,
        hknil, Bool.false_eq_true, if_false, hfunc, hcreate, huniq, hmap,
        MinKey, if_pos, List.append_nil]
    simp only [execInsertSharded, hvals, hkeys, hcvs, hp]
  · intro howned hknil hgen huniq hmap
    subst hknil
    have hp : handlePrimary GoVal.vnil cv0
        = (Outcome.err ("could not map " ++ goFmt (GoVal.vint n) ++ " to a keyspace id"),
           [Event.vindexGenerate cv0.col]) := by
      simp only [handlePrimary, handlePrimary.step1, howned, if_true,
        GoVal.vnil_beq_vnil, hgen, GoVal.vint_beq_vnil, Bool.false_eq_true,
        if_false, huniq, hmap, MinKey, if_pos, List.append_nil]
    simp only [execInsertSharded, hvals, hkeys, hcvs, hp]

/-- An insert plan whose supplied primary value maps to `MinKey`. -/
def planInsMinKeySupplied : Plan :=
  { planSelEq with
    id := .InsertSharded
    values := GoVal.vlist [GoVal.vint 1]
    rewritten := "insert into user (id) values (:_id)"
    table := { keyspaceName := "TestRouter"
               colVindexes := [{ col := "id", owned := false, vindex := vindexAllMinKey }]
               ownedVindexes := [] } }

/-- An owned `Functional` primary ColVindex (create always succeeds) whose
every image is `MinKey`. -/
def cvOwnedFuncMinKey : ColVindex :=
  { col := "id", owned := true,
    vindex := { functional := some { create := fun _ => .ok ()
                                     vdelete := fun _ _ => .ok () }
                uniqueMap := some (fun ks => .ok (ks.map (fun _ => MinKey))) } }

/-- An insert plan whose supplied primary value is created on the owned
primary vindex and then maps to `MinKey`. -/
def planInsMinKeyOwned : Plan :=
  { planSelEq with
    id := .InsertSharded
    values := GoVal.vlist [GoVal.vint 1]
    rewritten := "insert into user (id) values (:_id)"
    table := { keyspaceName := "TestRouter"
               colVindexes := [cvOwnedFuncMinKey]
               ownedVindexes := [] } }

/-- An owned generating primary vindex whose every image is `MinKey`. -/
def cvGenMinKey : ColVindex :=
  { col := "uid", owned := true,
    vindex := { funcGen := some (Except.ok 7)
                uniqueMap := some (fun ks => .ok (ks.map (fun _ => MinKey))) } }

/-- An insert plan whose generated primary value maps to `MinKey`. -/
def planInsMinKeyGen : Plan :=
  { planSelEq with
    id := .InsertSharded
    values := GoVal.vlist [GoVal.vnil]
    rewritten := "insert into user (uid) values (:_uid)"
    table := { keyspaceName := "TestRouter"
               colVindexes := [cvGenMinKey]
               ownedVindexes := [] } }

/-- Witness for C4: the non-owned supplied, the owned supplied (after
create), and the owned generated `MinKey` scenarios, at concrete inputs. -/
theorem c4_witness :
    execInsertSharded envOk planInsMinKeySupplied qEmpty
      = (Outcome.err "could not map 1 to a keyspace id", [])
    ∧ execInsertSharded envOk planInsMinKeyOwned qEmpty
      = (Outcome.err "could not map 1 to a keyspace id",
         [Event.vindexCreate "id" (GoVal.vint 1)])
    ∧ execInsertSharded envOk planInsMinKeyGen qEmpty
      = (Outcome.err "could not map 7 to a keyspace id",
         [Event.vindexGenerate "uid"]) := by
  refine ⟨?_, ?_, ?_⟩
  · exact (c4_insert_minkey_is_error envOk planInsMinKeySupplied qEmpty
      [GoVal.vint 1] (GoVal.vint 1) [] _ []
      (fun ks => .ok (ks.map (fun _ => MinKey))) 0
      { create := fun _ => .ok (), vdelete := fun _ _ => .ok () }
      rfl rfl rfl).1
      rfl rfl rfl rfl
  · exact (c4_insert_minkey_is_error envOk planInsMinKeyOwned qEmpty
      [GoVal.vint 1] (GoVal.vint 1) [] cvOwnedFuncMinKey []
      (fun ks => .ok (ks.map (fun _ => MinKey))) 0
      { create := fun _ => .ok (), vdelete := fun _ _ => .ok () }
      rfl rfl rfl).2.1
      rfl rfl rfl rfl rfl rfl
  · exact (c4_insert_minkey_is_error envOk planInsMinKeyGen qEmpty
      [GoVal.vnil] GoVal.vnil [] cvGenMinKey []
      (fun ks => .ok (ks.map (fun _ => MinKey))) 7
      { create := fun _ => .ok (), vdelete := fun _ _ => .ok () }
      rfl rfl rfl).2.2
      rfl rfl rfl rfl rfl

/-- An owned secondary ColVindex whose `LookupGenerator` yields `g`. -/
def genCv (g : Int) : ColVindex :=
  { col := "mid", owned := true,
    vindex := { lookupGen := some (fun _ => Except.ok g) } }

/-- An owned generating primary ColVindex yielding `g0` and routing to
`"K1"`. -/
def cvPrimGen (g0 : Int) : ColVindex :=
  { col := "uid", owned := true,
    vindex := { funcGen := some (Except.ok g0)
                uniqueMap := some (fun _ => .ok ["K1"]) } }

/-- The `InsertSharded` plan family: a generating primary plus one generating
secondary per entry of `gs`, all values unsupplied. -/
def insPlan (g0 : Int) (gs : List Int) : Plan :=
  { id := .InsertSharded
    values := GoVal.vlist (GoVal.vnil :: gs.map (fun _ => GoVal.vnil))
    rewritten := "insert into music (uid, mid) values (:_uid, :_mid)"
    subquery := ""
    table := { keyspaceName := "TestRouter"
               colVindexes := cvPrimGen g0 :: gs.map genCv
               ownedVindexes := [] }
    colVindex := cvPrimGen g0 }

/-- An environment whose backend answers every insert with `insertId = b`. -/
def insEnv (b : Nat) : Env :=
  { topo := fun _ => .ok ("TestRouter", ["S0"])
    shardFor := fun _ _ => .ok "S0"
    scatter := fun _ => .ok { rows := [], rowsAffected := 1, insertId := b }
    scatterMulti := fun _ => .error "unused"
    mapExact := fun _ => .error "unused"
    convert := fun _ v => .ok v }

/-- General characterization of the secondary insert loop: when every
secondary `handleNonPrimary` call succeeds with generation results `gens`
(zero for created, verified, or reverse-mapped columns; the generated value
for generator columns), the loop errs as soon as a second nonzero value
(counting the primary's accumulator) is generated, and otherwise returns the
first nonzero generated value or the accumulator. -/
theorem insertLoop_gen_outcomes (ksid : Ksid) :
    ∀ (keys : List GoVal) (cvs : List ColVindex) (gens : List Int) (a : Int),
    keys.length = cvs.length →
    List.Forall₂ (fun kc n => (handleNonPrimary kc.1 kc.2 ksid).1 = Outcome.ok n)
      (keys.zip cvs) gens →
    (insertLoop keys cvs ksid a).1
      = (if 2 ≤ countNZ (a :: gens) then
           Outcome.err "insert generated more than one value"
         else Outcome.ok (firstNZ (a :: gens))) := by
  intro keys
  induction keys with
  | nil =>
    intro cvs gens a hlen hf
    have hg : gens = [] := by
      rw [List.zip_nil_left] at hf
      exact List.forall₂_nil_left_iff.mp hf
    subst hg
    by_cases ha : a = 0
    · subst ha; simp [insertLoop, countNZ, firstNZ]
    · simp [insertLoop, countNZ, firstNZ, ha]
  | cons k ks ih =>
    intro cvs gens a hlen hf
    rcases cvs with _ | ⟨cv, cvs'⟩
    · simp at hlen
    · rw [List.zip_cons_cons, List.forall₂_cons_left_iff] at hf
      obtain ⟨n, gens', hhead, htail, rfl⟩ := hf
      have hlen' : ks.length = cvs'.length := by simpa using hlen
      rcases hnp : handleNonPrimary k cv ksid with ⟨o, t⟩
      rw [hnp] at hhead
      have ho : o = Outcome.ok n := hhead
      subst ho
      by_cases hn : n = 0
      · subst hn
        simp only [insertLoop, hnp, ne_eq, not_true_eq_false, if_false,
          ite_false, ih cvs' gens' a hlen' htail]
        by_cases ha : a = 0
        · subst ha; simp [countNZ, firstNZ]
        · simp [countNZ, firstNZ, ha]
      · by_cases ha : a = 0
        · subst ha
          simp only [insertLoop, hnp, ne_eq, hn, not_false_eq_true, if_true,
            not_true_eq_false, if_false, ite_true, ite_false,
            ih cvs' gens' n hlen' htail]
          simp [countNZ, firstNZ, hn]
        · simp only [insertLoop, hnp, ne_eq, hn, ha, not_false_eq_true,
            if_true, ite_true]
          have h2 : 2 ≤ countNZ (a :: n :: gens') := by
            simp [countNZ, ha, hn]; omega
          simp [h2]

/-- A list with no nonzero entry has first-nonzero `0`. -/
theorem firstNZ_of_countNZ_zero (l : List Int) (h : countNZ l = 0) :
    firstNZ l = 0 := by
  induction l with
  | nil => rfl
  | cons g rest ih =>
    by_cases hg : g = 0
    · subst hg
      simp only [countNZ, ne_eq, not_true_eq_false, if_false, ite_false,
        zero_add] at h
      simpa [firstNZ] using ih h
    · simp [countNZ, hg] at h

/-- A list with a nonzero entry has a nonzero first-nonzero. -/
theorem firstNZ_ne_zero_of_countNZ_pos (l : List Int) (h : 1 ≤ countNZ l) :
    firstNZ l ≠ 0 := by
  induction l with
  | nil => simp [countNZ] at h
  | cons g rest ih =>
    by_cases hg : g = 0
    · subst hg
      simp only [countNZ, ne_eq, not_true_eq_false, if_false, ite_false,
        zero_add] at h
      simpa [firstNZ] using ih h
    · simp [firstNZ, hg]

/-- Counterexample for C5: two ColVindexes generate values (the primary's
`Generate` runs and yields `0`, the secondary's yields `5` — both generate
events are in the trace), yet the statement does not fail: the router cannot
distinguish a generated `0` from no generation, succeeds, and reports
insert id `5`. -/
theorem c5_counterexample_two_generated_values_succeed :
    execInsertSharded (insEnv 0) (insPlan 0 [5]) qEmpty
      = (Outcome.ok { rows := [], rowsAffected := 1, insertId := 5 },
         [Event.vindexGenerate "uid",
          Event.bindVarSet "_uid" (GoVal.vint 0),
          Event.vindexGenerateLookup "mid" "K1",
          Event.bindVarSet "_mid" (GoVal.vint 5),
          Event.bindVarSet ksidName (GoVal.str "K1"),
          Event.execDML ("insert into music (uid, mid) values (:_uid, :_mid)"
            ++ dmlSuffix "K1") "TestRouter" ["S0"]]) := rfl

/-- C5 (amended: a generated value of `0` does not count — the router tracks
generation through a zero-is-absent int64 counter): for every
`InsertSharded` execution whose stages are as hypothesized — the values
resolve, the primary ColVindex yields a keyspace id and generation counter
`g0`, routing succeeds, every secondary `handleNonPrimary` succeeds with
generation results `gens` (supplied, verified and reverse-mapped columns
contribute `0`), and the backend answers `res` — the result carries the
router-produced insert id iff exactly one nonzero value was generated and
the backend returned insert id `0`; two or more nonzero generated values
fail the statement, as does one nonzero generated value together with a
nonzero backend insert id; with no nonzero generated value the backend
result passes through untouched. -/
theorem c5_amended_generation_rules
    (env : Env) (plan : Plan) (q : Query) (vs : List GoVal) (k0 : GoVal)
    (krest : List GoVal) (cv0 : ColVindex) (cvrest : List ColVindex)
    (ksid : Ksid) (g0 : Int) (t1 : List Event) (ks shard : String)
    (gens : List Int) (res : QueryResult)
    (hvals : plan.values = GoVal.vlist vs)
    (hkeys : resolveKeys vs q.bindVars = Outcome.ok (k0 :: krest))
    (hcvs : plan.table.colVindexes = cv0 :: cvrest)
    (hhp : handlePrimary k0 cv0 = (Outcome.ok (ksid, g0), t1))
    (hroute : getRouting env plan.table.keyspaceName ksid = .ok (ks, shard))
    (hlen : krest.length = cvrest.length)
    (hsec : List.Forall₂
      (fun kc n => (handleNonPrimary kc.1 kc.2 ksid).1 = Outcome.ok n)
      (krest.zip cvrest) gens)
    (hsc : env.scatter (plan.rewritten ++ dmlSuffix ksid) = .ok res) :
    (2 ≤ countNZ (g0 :: gens) →
      (execInsertSharded env plan q).1
        = Outcome.err "insert generated more than one value")
    ∧ (countNZ (g0 :: gens) = 1 → res.insertId ≠ 0 →
      (execInsertSharded env plan q).1
        = Outcome.err "vindex and db generated a value each for insert")
    ∧ (countNZ (g0 :: gens) = 1 → res.insertId = 0 →
      (execInsertSharded env plan q).1
        = Outcome.ok { res with insertId := toUInt64model (firstNZ (g0 :: gens)) })
    ∧ (countNZ (g0 :: gens) = 0 →
      (execInsertSharded env plan q).1 = Outcome.ok res) := by
  have hloop := insertLoop_gen_outcomes ksid krest cvrest gens g0 hlen hsec
  rcases hil : insertLoop krest cvrest ksid g0 with ⟨o, t2⟩
  rw [hil] at hloop
  refine ⟨?_, ?_, ?_, ?_⟩
  · intro h2
    rw [if_pos h2] at hloop
    have ho : o = Outcome.err "insert generated more than one value" := hloop
    subst ho
    simp only [execInsertSharded, hvals, hkeys, hcvs, hhp, hroute, hil]
  · intro h1 hnz
    have hlt : ¬ 2 ≤ countNZ (g0 :: gens) := by omega
    rw [if_neg hlt] at hloop
    have ho : o = Outcome.ok (firstNZ (g0 :: gens)) := hloop
    subst ho
    have hfz : firstNZ (g0 :: gens) ≠ 0 :=
      firstNZ_ne_zero_of_countNZ_pos _ (by omega)
    simp only [execInsertSharded, hvals, hkeys, hcvs, hhp, hroute, hil, hsc]
    rw [if_pos hfz, if_pos hnz]
  · intro h1 hz
    have hlt : ¬ 2 ≤ countNZ (g0 :: gens) := by omega
    rw [if_neg hlt] at hloop
    have ho : o = Outcome.ok (firstNZ (g0 :: gens)) := hloop
    subst ho
    have hfz : firstNZ (g0 :: gens) ≠ 0 :=
      firstNZ_ne_zero_of_countNZ_pos _ (by omega)
    have hnn : ¬ res.insertId ≠ 0 := by simp [hz]
    simp only [execInsertSharded, hvals, hkeys, hcvs, hhp, hroute, hil, hsc]
    rw [if_pos hfz, if_neg hnn]
  · intro h0
    rw [if_neg (by omega : ¬ 2 ≤ countNZ (g0 :: gens))] at hloop
    have ho : o = Outcome.ok (firstNZ (g0 :: gens)) := hloop
    subst ho
    have hfz : firstNZ (g0 :: gens) = 0 := firstNZ_of_countNZ_zero _ h0
    have hnn : ¬ firstNZ (g0 :: gens) ≠ 0 := by simp [hfz]
    simp only [execInsertSharded, hvals, hkeys, hcvs, hhp, hroute, hil, hsc]
    rw [if_neg hnn]

/-- A non-owned secondary ColVindex whose `Verify` accepts; it contributes
generation result `0`. -/
def cvVerify : ColVindex := { col := "mid", owned := false, vindex := {} }

/-- An insert plan mixing a supplied non-owned primary with a supplied
non-owned verified secondary: no ColVindex generates a value. -/
def planMix : Plan :=
  { id := .InsertSharded
    values := GoVal.vlist [GoVal.vint 1, GoVal.vint 5]
    rewritten := "insert into music (id, mid) values (:_id, :_mid)"
    subquery := ""
    table := { keyspaceName := "TestRouter"
               colVindexes := [cvHash, cvVerify]
               ownedVindexes := [] }
    colVindex := cvHash }

/-- Witness for C5 (amended): one nonzero generated value with backend id 0
carries the router insert id; two nonzero generated values fail; an insert
whose columns are all supplied (generation results 0) passes the backend
result through untouched. -/
theorem c5_witness :
    (execInsertSharded (insEnv 0) (insPlan 7 []) qEmpty).1
      = Outcome.ok { rows := [], rowsAffected := 1,
                     insertId := toUInt64model (firstNZ [7]) }
    ∧ (execInsertSharded (insEnv 3) (insPlan 7 [9]) qEmpty).1
      = Outcome.err "insert generated more than one value"
    ∧ (execInsertSharded (insEnv 4) planMix qEmpty).1
      = Outcome.ok { rows := [], rowsAffected := 1, insertId := 4 } := by
  refine ⟨?_, ?_, ?_⟩
  · exact (c5_amended_generation_rules (insEnv 0) (insPlan 7 []) qEmpty
      [GoVal.vnil] GoVal.vnil [] (cvPrimGen 7) [] "K1" 7
      [Event.vindexGenerate "uid", Event.bindVarSet "_uid" (GoVal.vint 7)]
      "TestRouter" "S0" [] { rows := [], rowsAffected := 1, insertId := 0 }
      rfl rfl rfl rfl rfl rfl List.Forall₂.nil rfl).2.2.1 rfl rfl
  · exact (c5_amended_generation_rules (insEnv 3) (insPlan 7 [9]) qEmpty
      [GoVal.vnil, GoVal.vnil] GoVal.vnil [GoVal.vnil] (cvPrimGen 7) [genCv 9]
      "K1" 7
      [Event.vindexGenerate "uid", Event.bindVarSet "_uid" (GoVal.vint 7)]
      "TestRouter" "S0" [9] { rows := [], rowsAffected := 1, insertId := 3 }
      rfl rfl rfl rfl rfl rfl
      (List.Forall₂.cons rfl List.Forall₂.nil) rfl).1 (by decide)
  · exact (c5_amended_generation_rules (insEnv 4) planMix qEmpty
      [GoVal.vint 1, GoVal.vint 5] (GoVal.vint 1) [GoVal.vint 5] cvHash
      [cvVerify] "K1" 0 [Event.bindVarSet "_id" (GoVal.vint 1)]
      "TestRouter" "S0" [0] { rows := [], rowsAffected := 1, insertId := 4 }
      rfl rfl rfl rfl rfl rfl
      (List.Forall₂.cons rfl List.Forall₂.nil) rfl).2.2.2 rfl

/-- A concatenated trace is DML-free iff both halves are. -/
theorem noDML_append (t1 t2 : List Event) :
    noDML (t1 ++ t2) = (noDML t1 && noDML t2) := by
  simp [noDML, List.all_append]

/-- Unfolding of `noDML` over a cons. -/
theorem noDML_cons (e : Event) (t : List Event) :
    noDML (e :: t) = (!e.isDML && noDML t) := by
  simp [noDML]

/-- The ownership phase of `handlePrimary` dispatches no DML. -/
theorem noDML_step1 (k : GoVal) (cv : ColVindex) :
    noDML (handlePrimary.step1 k cv).2 = true := by
  unfold handlePrimary.step1
  repeat' split
  all_goals rfl

/-- `handlePrimary` dispatches no DML. -/
theorem noDML_handlePrimary (k : GoVal) (cv : ColVindex) :
    noDML (handlePrimary k cv).2 = true := by
  have hstep := noDML_step1 k cv
  unfold handlePrimary
  rcases h : handlePrimary.step1 k cv with ⟨o, t⟩
  rw [h] at hstep
  rcases o with ⟨key', gen⟩ | e | m
  · simp only
    repeat' split
    all_goals simp_all [noDML_append, noDML, Event.isDML]
  · exact hstep
  · exact hstep

/-- `handleNonPrimary` dispatches no DML. -/
theorem noDML_handleNonPrimary (k : GoVal) (cv : ColVindex) (ksid : Ksid) :
    noDML (handleNonPrimary k cv ksid).2 = true := by
  unfold handleNonPrimary
  repeat' split
  all_goals rfl

/-- The secondary insert loop dispatches no DML. -/
theorem noDML_insertLoop (ks : List GoVal) (cvs : List ColVindex)
    (ksid : Ksid) (gen : Int) :
    noDML (insertLoop ks cvs ksid gen).2 = true := by
  induction ks generalizing cvs gen with
  | nil => rfl
  | cons k krest ih =>
    rcases cvs with _ | ⟨cv, cvrest⟩
    · rfl
    · have hnp := noDML_handleNonPrimary k cv ksid
      unfold insertLoop
      rcases h : handleNonPrimary k cv ksid with ⟨o, t⟩
      rw [h] at hnp
      rcases o with n | e | m
      · simp only
        repeat' split
        all_goals simp_all [noDML_append, noDML, Event.isDML]
        all_goals exact ih _ _
      · exact hnp
      · exact hnp

/-- The per-ColVindex deletion loop dispatches no DML. -/
theorem noDML_delLoop (env : Env) (ksid : Ksid) (rows : List (List GoVal))
    (cvs : List ColVindex) (i : Nat) :
    noDML (delLoop env ksid rows cvs i).2 = true := by
  induction cvs generalizing i with
  | nil => rfl
  | cons cv rest ih =>
    unfold delLoop
    rcases hc : collectColumn env i rows with vals | e | m
    · simp only [hc]
      rcases hf : cv.vindex.functional with _ | fops
      · rcases hl : cv.vindex.lookup with _ | lops
        · simp [hf, hl, noDML]
        · simp only [hf, hl]
          rcases hd : lops.vdelete (dedupVals [] vals) ksid with e | u
          · simp [hd, noDML, Event.isDML]
          · simp [hd, noDML_cons, Event.isDML, ih]
      · simp only [hf]
        rcases hd : fops.vdelete (dedupVals [] vals) ksid with e | u
        · simp [hd, noDML, Event.isDML]
        · simp [hd, noDML_cons, Event.isDML, ih]
    · simp [hc, noDML]
    · simp [hc, noDML]

/-- The owned-vindex deletion protocol dispatches no base DML: its trace
holds only the subquery read and the vindex `Delete` calls. -/
theorem noDML_deleteVindexEntries (env : Env) (plan : Plan) (ks shard : String)
    (ksid : Ksid) :
    noDML (deleteVindexEntries env plan ks shard ksid).2 = true := by
  unfold deleteVindexEntries
  rcases hs : env.scatter plan.subquery with e | result
  · simp [hs, noDML, Event.isDML]
  · simp only [hs]
    rcases hr : result.rows with _ | ⟨row0, rtail⟩
    · simp [noDML, Event.isDML]
    · by_cases hw : row0.length ≠ plan.table.ownedVindexes.length
      · simp [hw, noDML, Event.isDML]
      · have h := noDML_delLoop env ksid (row0 :: rtail) plan.table.ownedVindexes 0
        simp [hw, noDML_cons, Event.isDML, h]

/-- A DML-free trace vacuously satisfies the routing-comment property. -/
theorem dmlTraceOk_of_noDML (rw : String) (t : List Event) (h : noDML t = true) :
    dmlTraceOk rw t := by
  intro sql ks shards hmem
  exfalso
  have hx := List.all_eq_true.mp h _ hmem
  simp [Event.isDML] at hx

/-- The empty trace satisfies the routing-comment property. -/
theorem dmlTraceOk_nil (rw : String) : dmlTraceOk rw [] :=
  dmlTraceOk_of_noDML rw [] rfl

/-- The two-event dispatch tail produced by `dmlDispatch` satisfies the
routing-comment property. -/
theorem dmlTraceOk_dispatch (rw ks shard : String) (ksid : Ksid) :
    dmlTraceOk rw
      [Event.bindVarSet ksidName (GoVal.str ksid),
       Event.execDML (rw ++ dmlSuffix ksid) ks [shard]] := by
  intro sql ks2 shards hmem
  cases hmem with
  | tail _ hmem2 =>
    cases hmem2 with
    | head => exact ⟨ksid, rfl, List.mem_cons_self _ _⟩
    | tail _ hmem3 => cases hmem3

/-- Prepending a DML-free prefix preserves the routing-comment property. -/
theorem dmlTraceOk_append (rw : String) (t0 t1 : List Event)
    (h0 : noDML t0 = true) (h1 : dmlTraceOk rw t1) :
    dmlTraceOk rw (t0 ++ t1) := by
  intro sql ks shards hmem
  rcases List.mem_append.mp hmem with hin | hin
  · exfalso
    have hx := List.all_eq_true.mp h0 _ hin
    simp [Event.isDML] at hx
  · rcases h1 sql ks shards hin with ⟨ksid, hsql, hbind⟩
    exact ⟨ksid, hsql, List.mem_append.mpr (Or.inr hbind)⟩

/-- C6: on every path of each of the three sharded-DML executors, any base
DML dispatched to the scatter executor carries exactly the plan's rewritten
SQL followed by the routing comment of the statement's keyspace id — the
same id the executor binds into the `keyspace_id` bind variable. -/
theorem c6_dml_ends_with_routing_comment (env : Env) (plan : Plan) (q : Query) :
    dmlTraceOk plan.rewritten (execUpdateEqual env plan q).2
    ∧ dmlTraceOk plan.rewritten (execDeleteEqual env plan q).2
    ∧ dmlTraceOk plan.rewritten (execInsertSharded env plan q).2 := by
  refine ⟨?_, ?_, ?_⟩
  · rcases hk : resolveKeys [plan.values] q.bindVars with keys | e | m
    · rcases keys with _ | ⟨k, krest⟩
      · simp only [execUpdateEqual, hk]; exact dmlTraceOk_nil _
      · rcases hr : resolveSingleShard env k plan with ⟨ks, shard, ksid⟩ | e | m
        · by_cases hmk : ksid = MinKey
          · simp only [execUpdateEqual, hk, hr, hmk, ite_true, if_pos]
            exact dmlTraceOk_nil _
          · simp only [execUpdateEqual, hk, hr, if_neg hmk, dmlDispatch]
            exact dmlTraceOk_dispatch plan.rewritten ks shard ksid
        · simp only [execUpdateEqual, hk, hr]; exact dmlTraceOk_nil _
        · simp only [execUpdateEqual, hk, hr]; exact dmlTraceOk_nil _
    · simp only [execUpdateEqual, hk]; exact dmlTraceOk_nil _
    · simp only [execUpdateEqual, hk]; exact dmlTraceOk_nil _
  · rcases hk : resolveKeys [plan.values] q.bindVars with keys | e | m
    · rcases keys with _ | ⟨k, krest⟩
      · simp only [execDeleteEqual, hk]; exact dmlTraceOk_nil _
      · rcases hr : resolveSingleShard env k plan with ⟨ks, shard, ksid⟩ | e | m
        · by_cases hmk : ksid = MinKey
          · simp only [execDeleteEqual, hk, hr, hmk, ite_true, if_pos]
            exact dmlTraceOk_nil _
          · by_cases hsq : plan.subquery ≠ ""
            · have hnd := noDML_deleteVindexEntries env plan ks shard ksid
              rcases hdel : deleteVindexEntries env plan ks shard ksid with ⟨o, t0⟩
              rw [hdel] at hnd
              rcases o with u | e | m
              · simp only [execDeleteEqual, hk, hr, if_neg hmk, if_pos hsq,
                  hdel, dmlDispatch]
                exact dmlTraceOk_append _ _ _ hnd
                  (dmlTraceOk_dispatch plan.rewritten ks shard ksid)
              · simp only [execDeleteEqual, hk, hr, if_neg hmk, if_pos hsq, hdel]
                exact dmlTraceOk_of_noDML _ _ hnd
              · simp only [execDeleteEqual, hk, hr, if_neg hmk, if_pos hsq, hdel]
                exact dmlTraceOk_of_noDML _ _ hnd
            · simp only [execDeleteEqual, hk, hr, if_neg hmk, if_neg hsq,
                dmlDispatch]
              exact dmlTraceOk_dispatch plan.rewritten ks shard ksid
        · simp only [execDeleteEqual, hk, hr]; exact dmlTraceOk_nil _
        · simp only [execDeleteEqual, hk, hr]; exact dmlTraceOk_nil _
    · simp only [execDeleteEqual, hk]; exact dmlTraceOk_nil _
    · simp only [execDeleteEqual, hk]; exact dmlTraceOk_nil _
  · rcases hv : plan.values with s | b | n | _ | input
    · simp only [execInsertSharded, hv]; exact dmlTraceOk_nil _
    · simp only [execInsertSharded, hv]; exact dmlTraceOk_nil _
    · simp only [execInsertSharded, hv]; exact dmlTraceOk_nil _
    · simp only [execInsertSharded, hv]; exact dmlTraceOk_nil _
    · rcases hk : resolveKeys input q.bindVars with keys | e | m
      · rcases keys with _ | ⟨k0, krest⟩
        · simp only [execInsertSharded, hv, hk]; exact dmlTraceOk_nil _
        · rcases hcv : plan.table.colVindexes with _ | ⟨cv0, cvrest⟩
          · simp only [execInsertSharded, hv, hk, hcv]; exact dmlTraceOk_nil _
          · have hnd1 := noDML_handlePrimary k0 cv0
            rcases hhp : handlePrimary k0 cv0 with ⟨o1, t1⟩
            rw [hhp] at hnd1
            rcases o1 with ⟨ksid, gen0⟩ | e | m
            · rcases hg : getRouting env plan.table.keyspaceName ksid
                with e | ⟨ks, shard⟩
              · simp only [execInsertSharded, hv, hk, hcv, hhp, hg]
                exact dmlTraceOk_of_noDML _ _ hnd1
              · have hnd2 := noDML_insertLoop krest cvrest ksid gen0
                rcases hil : insertLoop krest cvrest ksid gen0 with ⟨o2, t2⟩
                rw [hil] at hnd2
                have hnd12 : noDML (t1 ++ t2) = true := by
                  simp [noDML_append, hnd1, hnd2]
                rcases o2 with generated | e | m
                · have hdisp := dmlTraceOk_append plan.rewritten (t1 ++ t2) _
                    hnd12 (dmlTraceOk_dispatch plan.rewritten ks shard ksid)
                  rcases hsc : env.scatter (plan.rewritten ++ dmlSuffix ksid)
                    with e | result
                  · simp only [execInsertSharded, hv, hk, hcv, hhp, hg, hil, hsc]
                    exact hdisp
                  · by_cases hgz : generated ≠ 0
                    · by_cases hiz : result.insertId ≠ 0
                      · simp only [execInsertSharded, hv, hk, hcv, hhp, hg, hil,
                          hsc, if_pos hgz, if_pos hiz]
                        exact hdisp
                      · simp only [execInsertSharded, hv, hk, hcv, hhp, hg, hil,
                          hsc, if_pos hgz, if_neg hiz]
                        exact hdisp
                    · simp only [execInsertSharded, hv, hk, hcv, hhp, hg, hil,
                        hsc, if_neg hgz]
                      exact hdisp
                · simp only [execInsertSharded, hv, hk, hcv, hhp, hg, hil]
                  exact dmlTraceOk_of_noDML _ _ hnd12
                · simp only [execInsertSharded, hv, hk, hcv, hhp, hg, hil]
                  exact dmlTraceOk_of_noDML _ _ hnd12
            · simp only [execInsertSharded, hv, hk, hcv, hhp]
              exact dmlTraceOk_of_noDML _ _ hnd1
            · simp only [execInsertSharded, hv, hk, hcv, hhp]
              exact dmlTraceOk_of_noDML _ _ hnd1
      · simp only [execInsertSharded, hv, hk]; exact dmlTraceOk_nil _
      · simp only [execInsertSharded, hv, hk]; exact dmlTraceOk_nil _

/-- A concrete `UpdateEqual` plan over the hash fixture. -/
def planUpd2 : Plan :=
  { id := .UpdateEqual
    values := GoVal.vint 1
    rewritten := "update user set v = 2 where id = 1"
    subquery := ""
    table := tableUser
    colVindex := cvHash }

/-- Witness for C6: at the concrete update fixture, the dispatched DML is the
rewritten SQL plus the routing comment of the keyspace id bound into
`keyspace_id`. -/
theorem c6_witness :
    ∃ ksid,
      "update user set v = 2 where id = 1" ++ dmlSuffix "K1"
        = "update user set v = 2 where id = 1" ++ dmlSuffix ksid
      ∧ Event.bindVarSet ksidName (GoVal.str ksid)
          ∈ (execUpdateEqual envOk planUpd2 qEmpty).2 := by
  have h := (c6_dml_ends_with_routing_comment envOk planUpd2 qEmpty).1
  have hm : (execUpdateEqual envOk planUpd2 qEmpty).2
      = [Event.bindVarSet ksidName (GoVal.str "K1"),
         Event.execDML ("update user set v = 2 where id = 1" ++ dmlSuffix "K1")
           "TestRouter" ["S0"]] := rfl
  have hmem : Event.execDML
      ("update user set v = 2 where id = 1" ++ dmlSuffix "K1")
      "TestRouter" ["S0"] ∈ (execUpdateEqual envOk planUpd2 qEmpty).2 := by
    rw [hm]
    exact List.mem_cons_of_mem _ (List.mem_cons_self _ _)
  exact h _ _ _ hmem

/-- C7: first conjunct — the owned-vindex deletion protocol itself never
dispatches the base delete (its trace is DML-free).  Second conjunct — on a
`DeleteEqual` whose plan carries a non-empty subquery (under the resolution
hypotheses), an error outcome of the protocol becomes the statement's result
with the protocol's trace and nothing more (no base delete), while a
successful protocol is followed — strictly after the protocol's whole
trace — by the `keyspace_id` binding and the single base-delete dispatch. -/
theorem c7_delete_protocol_ordering :
    (∀ (env : Env) (plan : Plan) (ks shard : String) (ksid : Ksid),
      noDML (deleteVindexEntries env plan ks shard ksid).2 = true)
    ∧ (∀ (env : Env) (plan : Plan) (q : Query) (k : GoVal) (ks shard : String)
        (ksid : Ksid),
      resolveKeys [plan.values] q.bindVars = Outcome.ok [k] →
      resolveSingleShard env k plan = Outcome.ok (ks, shard, ksid) →
      ksid ≠ MinKey →
      plan.subquery ≠ "" →
      ((∀ e t0,
          deleteVindexEntries env plan ks shard ksid = (Outcome.err e, t0) →
          execDeleteEqual env plan q = (Outcome.err e, t0))
       ∧ (∀ (u : Unit) t0,
          deleteVindexEntries env plan ks shard ksid = (Outcome.ok u, t0) →
          execDeleteEqual env plan q
            = (ofExcept (env.scatter (plan.rewritten ++ dmlSuffix ksid)),
               t0 ++ [Event.bindVarSet ksidName (GoVal.str ksid),
                      Event.execDML (plan.rewritten ++ dmlSuffix ksid) ks [shard]])))) := by
  constructor
  · exact noDML_deleteVindexEntries
  · intro env plan q k ks shard ksid hk hr hmk hsq
    constructor
    · intro e t0 hdel
      simp only [execDeleteEqual, hk, hr, if_neg hmk, if_pos hsq, hdel]
    · intro u t0 hdel
      simp only [execDeleteEqual, hk, hr, if_neg hmk, if_pos hsq, hdel,
        dmlDispatch]

/-- The subquery result fixture: three single-column rows with a duplicate
byte-string value. -/
def subqRes : QueryResult :=
  { rows := [[GoVal.bytes "alice"], [GoVal.bytes "bob"], [GoVal.bytes "alice"]]
    rowsAffected := 0
    insertId := 0 }

/-- An environment answering the deletion subquery with `subqRes` and
everything else with `r1`. -/
def envDel : Env :=
  { envOk with
    scatter := fun sql =>
      if sql = "select name from user where id = 1" then .ok subqRes
      else .ok r1 }

/-- A `DeleteEqual` plan with an owned secondary vindex and its subquery. -/
def planDel : Plan :=
  { id := .DeleteEqual
    values := GoVal.vint 1
    rewritten := "delete from user where id = 1"
    subquery := "select name from user where id = 1"
    table := { keyspaceName := "TestRouter"
               colVindexes := [cvHash, cvOwnedLookup]
               ownedVindexes := [cvOwnedLookup] }
    colVindex := cvHash }

/-- Witness for C7: on the concrete delete fixture the protocol trace is
DML-free, and the full execution runs the subquery, then the de-duplicated
owned-vindex `Delete`, then binds `keyspace_id` and dispatches the base
delete. -/
theorem c7_witness :
    noDML (deleteVindexEntries envDel planDel "TestRouter" "S0" "K1").2 = true
    ∧ execDeleteEqual envDel planDel qEmpty
      = (Outcome.ok r1,
         [Event.execQuery "select name from user where id = 1" "TestRouter" ["S0"],
          Event.vindexDelete "name" [GoVal.str "alice", GoVal.str "bob"] "K1",
          Event.bindVarSet ksidName (GoVal.str "K1"),
          Event.execDML ("delete from user where id = 1" ++ dmlSuffix "K1")
            "TestRouter" ["S0"]]) := by
  constructor
  · exact c7_delete_protocol_ordering.1 envDel planDel "TestRouter" "S0" "K1"
  · have h := (c7_delete_protocol_ordering.2 envDel planDel qEmpty (GoVal.vint 1)
      "TestRouter" "S0" "K1" rfl rfl (by decide) (by decide)).2 ()
      [Event.execQuery "select name from user where id = 1" "TestRouter" ["S0"],
       Event.vindexDelete "name" [GoVal.str "alice", GoVal.str "bob"] "K1"] rfl
    exact h

/-- C9: the two resolved keys become the inclusive start and exclusive end of
the key range handed to the topology adapter (first conjunct); when the
range resolves to any number of shards other than one the executor fails
with the "keyrange must match exactly one shard" error and dispatches
nothing (second conjunct); when it resolves to exactly one shard the query
is dispatched to it (third conjunct). -/
theorem c9_keyrange_must_match_one_shard
    (env : Env) (plan : Plan) (q : Query) (vs : List GoVal) (a b : String)
    (hvals : plan.values = GoVal.vlist vs)
    (hkeys : resolveKeys vs q.bindVars = Outcome.ok [GoVal.str a, GoVal.str b]) :
    getKeyRange [GoVal.str a, GoVal.str b] = Outcome.ok { start := a, endk := b }
    ∧ (∀ ks shards,
        env.mapExact { start := a, endk := b } = .ok (ks, shards) →
        shards.length ≠ 1 →
        execSelectKeyrange env plan q
          = (Outcome.err ("keyrange must match exactly one shard: "
              ++ goFmtList [GoVal.str a, GoVal.str b]), []))
    ∧ (∀ ks shard,
        env.mapExact { start := a, endk := b } = .ok (ks, [shard]) →
        execSelectKeyrange env plan q
          = (ofExcept (env.scatter plan.rewritten),
             [Event.execQuery plan.rewritten ks [shard]])) := by
  have hgkr : getKeyRange [GoVal.str a, GoVal.str b]
      = Outcome.ok { start := a, endk := b } := rfl
  refine ⟨hgkr, ?_, ?_⟩
  · intro ks shards hmap hne
    rcases shards with _ | ⟨s, rest⟩
    · simp only [execSelectKeyrange, hvals, hkeys, hgkr, hmap]
    · rcases rest with _ | ⟨s2, r2⟩
      · exact absurd rfl hne
      · simp only [execSelectKeyrange, hvals, hkeys, hgkr, hmap]
  · intro ks shard hmap
    simp only [execSelectKeyrange, hvals, hkeys, hgkr, hmap]

/-- A `SelectKeyrange` plan whose two values resolve to the byte-string
endpoints "KA" and "KB". -/
def planKR : Plan :=
  { id := .SelectKeyrange
    values := GoVal.vlist [GoVal.bytes "KA", GoVal.bytes "KB"]
    rewritten := "select 1"
    subquery := ""
    table := tableUser
    colVindex := cvHash }

/-- An environment whose keyrange resolution spans two shards. -/
def envKRbad : Env :=
  { envOk with mapExact := fun _ => .ok ("TestRouter", ["S0", "S1"]) }

/-- Witness for C9: two covered shards fail with the exact error; one covered
shard dispatches. -/
theorem c9_witness :
    execSelectKeyrange envKRbad planKR qEmpty
      = (Outcome.err ("keyrange must match exactly one shard: "
          ++ goFmtList [GoVal.str "KA", GoVal.str "KB"]), [])
    ∧ execSelectKeyrange envOk planKR qEmpty
      = (Outcome.ok r1, [Event.execQuery "select 1" "TestRouter" ["S0"]]) := by
  constructor
  · exact (c9_keyrange_must_match_one_shard envKRbad planKR qEmpty
      [GoVal.bytes "KA", GoVal.bytes "KB"] "KA" "KB" rfl rfl).2.1
      "TestRouter" ["S0", "S1"] rfl (by decide)
  · have h := (c9_keyrange_must_match_one_shard envOk planKR qEmpty
      [GoVal.bytes "KA", GoVal.bytes "KB"] "KA" "KB" rfl rfl).2.2
      "TestRouter" "S0" rfl
    exact h

end VtRouter
